import Mathlib

/-!
Shallow embedding of the macOS compatibility osquery table extension
(`src/macos_compatibility.cpp`).

The embedding models:
  * the cache state (the two files under the cache directory: the feed body
    `macos_data_feed.json` and the etag `macos_data_feed_etag.txt`) as a pair
    of strings, where the empty string stands for "file absent or unreadable"
    exactly as `readFile` in the source collapses those cases;
  * the transport call (`curl_easy_perform` plus the response metadata read
    back via `curl_easy_getinfo`) as an input value `CurlResult`: either a
    network error (`res != CURLE_OK`) or a completed response carrying an HTTP
    status code, an optional ETag header, and a body;
  * `fetchSofaJson` as a state-passing function from that input and the cache
    state to the returned body string and the updated cache state;
  * JSON parsing (`json::parse` together with the typed field extractions the
    source performs inside its `try` block) as a `ParseOutcome` value.  The
    try block runs, in order: `json::parse` (line 204), the
    `OSVersions[0]["OSVersion"]` extraction (line 206), the VirtualMac
    substitution into the local `model_identifier` (lines 210-212), and the
    `Models`/`SupportedOS` extractions (lines 216-218).  A throw at the first
    two steps reaches the catch block with the local `model_identifier` still
    holding the host's original value (`.errorBeforeSubst`); a throw at the
    last step reaches it after the substitution has run
    (`.errorAfterSubst`), so the error row then reports the substituted
    reference model for VirtualMac hosts.  `.ok` carries the `Feed`: the two
    collections the source reads, the ordered `OSVersions` sequence (each
    record's `OSVersion` string) and the `Models` object as an association
    list from model identifier to its `SupportedOS` string sequence.  The one
    shape error the source can still hit on an otherwise well-formed document
    — extracting `OSVersions[0]["OSVersion"]` when `OSVersions` is empty,
    which throws a json type error caught by the same handler, before the
    substitution — is kept explicit: `Feed.osVersions` may be `[]` and
    evaluation then produces the parse-error row with the original
    identifier, as the C++ does;
  * `generate` as a function from the host facts (the two strings obtained
    from the `os_version` and `system_info` tables), the fetched body and the
    parse outcome to the list of emitted rows.
-/

namespace MacOSCompat

/-- Host facts supplied by the external collaborators: the product version
string from the `os_version` table and the hardware model from the
`system_info` table. -/
structure HostFacts where
  system_version : String
  model_identifier : String
deriving DecidableEq, Repr

/-- One emitted table row, with the seven columns the plugin declares.
`is_compatible` is the string the source stores into the row: "1" for
compatible, "0" for incompatible, "-1" for the unknown/error code. -/
structure TableRow where
  system_version : String
  system_os_major : String
  model_identifier : String
  latest_macos : String
  latest_compatible_macos : String
  is_compatible : String
  status : String
deriving DecidableEq, Repr

/-- The parsed feed document: the `OSVersions` sequence (each element's
`OSVersion` string, in feed order) and the `Models` object as an association
list from model identifier to its `SupportedOS` sequence. -/
structure Feed where
  osVersions : List String
  models : List (String × List String)
deriving DecidableEq, Repr

/-- The two persisted cache artifacts: the feed body file and the etag file.
The empty string models an absent or unreadable file, matching `readFile`. -/
structure CacheState where
  jsonCache : String
  etagCache : String
deriving DecidableEq, Repr

/-- Outcome of the transport call: `netError` models `curl_easy_perform`
returning a code other than `CURLE_OK`; `completed` models a finished HTTP
exchange with its status code, the optional ETag response header
(`CURLINFO_ETAG`), and the accumulated response body. -/
inductive CurlResult where
  | netError : CurlResult
  | completed (httpCode : Nat) (etag : Option String) (body : String) : CurlResult
deriving DecidableEq, Repr

/-- Outcome of the try block's parse and typed field extractions, refined by
where a `std::exception` is thrown relative to the VirtualMac substitution at
lines 211-212 (which mutates the local `model_identifier` that the catch
block later reports):

  * `errorBeforeSubst detail` — thrown by `json::parse` (line 204) or by the
    `OSVersions[0]["OSVersion"]` extraction (line 206), before the
    substitution runs: the catch block sees the original identifier;
  * `errorAfterSubst detail` — thrown by the `Models`/`SupportedOS`
    extractions (lines 216-218, e.g. an ill-typed `Models` entry), after the
    substitution ran: the catch block sees the possibly substituted
    identifier;
  * `ok feed` — no throw up to the `Models` lookup; the document's relevant
    content is `feed`. -/
inductive ParseOutcome where
  | errorBeforeSubst (detail : String) : ParseOutcome
  | errorAfterSubst (detail : String) : ParseOutcome
  | ok (feed : Feed) : ParseOutcome
deriving DecidableEq, Repr

/-- C++ `std::string::find(needle) != npos`, i.e. substring containment, on
character lists.  `find` succeeds exactly when the needle occurs as a prefix
of some suffix of the haystack. -/
def strFind : List Char → List Char → Bool
  | [], needle => needle.isPrefixOf []
  | a :: t, needle => needle.isPrefixOf (a :: t) || strFind t needle

/-- Substring containment on strings, as the source's
`model_identifier.find("VirtualMac") != std::string::npos`. -/
def stringContains (hay needle : String) : Bool :=
  strFind hay.toList needle.toList

/-- Index of the first occurrence of a character, modelling
`std::string::find(".")`: `none` stands for `npos`. -/
def findChar : List Char → Char → Option Nat
  | [], _ => none
  | a :: t, c => if a = c then some 0 else (findChar t c).map (· + 1)

/-- The source's major-version extraction
`system_version.substr(0, system_version.find("."))`: the prefix before the
first '.', or the whole string when there is no '.' (since
`substr(0, npos)` returns the whole string). -/
def system_os_major (v : String) : String :=
  match findChar v.toList '.' with
  | some p => String.mk (v.toList.take p)
  | none => v

/-- Lookup of a model identifier in the feed's `Models` object, modelling
`j["Models"].contains(m)` followed by reading `j["Models"][m]["SupportedOS"]`:
`none` when the key is absent. -/
def lookupModel : List (String × List String) → String → Option (List String)
  | [], _ => none
  | (k, v) :: t, m => if k = m then some v else lookupModel t m

/-- The row emitted when `fetchSofaJson` returned an empty body (total
failure), lines 191-199 of the source. -/
def couldNotObtainRow (hf : HostFacts) : TableRow :=
  { system_version := hf.system_version
    system_os_major := system_os_major hf.system_version
    model_identifier := hf.model_identifier
    latest_macos := "Unknown"
    latest_compatible_macos := "Unknown"
    is_compatible := "-1"
    status := "Could not obtain data" }

/-- The row emitted from the `catch` block when parsing or field extraction
throws, lines 242-251 of the source.  `hf.model_identifier` here stands for
the value of the local `model_identifier` at the time of the throw: callers
pass the substituted reference model when the throw occurred after the
VirtualMac substitution of lines 211-212. -/
def parseErrorRow (hf : HostFacts) (detail : String) : TableRow :=
  { system_version := hf.system_version
    system_os_major := system_os_major hf.system_version
    model_identifier := hf.model_identifier
    latest_macos := "Error"
    latest_compatible_macos := "Error"
    is_compatible := "-1"
    status := "Error parsing data: " ++ detail }

/-- The `what()` text of the json type error thrown when
`j["OSVersions"][0]["OSVersion"]` is extracted from a document whose
`OSVersions` array is empty (the index pads with `null`, and converting
`null` to `std::string` throws). -/
def typeErrorDetail : String :=
  "[json.exception.type_error.302] type must be string, but is null"

/-- The body of the source's `try` block (lines 204-237) on a document that
parsed: extract the latest OS version, substitute the reference model for
virtual machines, look the model up in the feed, and build the row. -/
def tryEvaluateFeed (hf : HostFacts) (feed : Feed) : TableRow :=
  match feed.osVersions with
  | [] => parseErrorRow hf typeErrorDetail
  | latest_os :: _ =>
    let model_id :=
      if stringContains hf.model_identifier "VirtualMac" then "Macmini9,1"
      else hf.model_identifier
    let lookedUp := lookupModel feed.models model_id
    let latest_compatible_os :=
      match lookedUp with
      | some (o :: _) => o
      | _ => "Unsupported"
    let status1 :=
      match lookedUp with
      | some (_ :: _) => "Pass"
      | _ => "Unsupported Hardware"
    let status2 :=
      if latest_os ≠ latest_compatible_os ∧ status1 ≠ "Unsupported Hardware"
      then "Fail" else status1
    { system_version := hf.system_version
      system_os_major := system_os_major hf.system_version
      model_identifier := model_id
      latest_macos := latest_os
      latest_compatible_macos := latest_compatible_os
      is_compatible := if latest_os = latest_compatible_os then "1" else "0"
      status := status2 }

/-- The fetch routine `fetchSofaJson` (lines 84-152): `dirOk` models
`ensureCacheDir()` succeeding, `curlOk` models `curl_easy_init()` returning a
handle.  Returns the body handed to the caller and the cache state after the
call.  The ETag response header, when present on any completed response, is
written to the etag file before the status code is examined; the body file is
written only on HTTP 200; on any other completed status the cached body, if
non-empty, is returned as a stale fallback; a network error returns the empty
string at once. -/
def fetchSofaJson (dirOk curlOk : Bool) (resp : CurlResult) (st : CacheState) :
    String × CacheState :=
  if dirOk = false then ("", st)
  else if curlOk = false then ("", st)
  else
    match resp with
    | .netError => ("", st)
    | .completed code etagResp body =>
      let st1 :=
        match etagResp with
        | some e => { st with etagCache := e }
        | none => st
      if code = 304 then (st1.jsonCache, st1)
      else if code = 200 then (body, { st1 with jsonCache := body })
      else if st1.jsonCache ≠ "" then (st1.jsonCache, st1)
      else ("", st1)

/-- The tail of `generate` (lines 188-254), once the host facts are in hand:
an empty fetched body yields the "Could not obtain data" row; otherwise the
body is parsed (`parsed` is the outcome of `json::parse` plus the typed
extractions, see the module docstring) and either the evaluation row or the
parse-error row is emitted.  On a throw after the VirtualMac substitution the
catch block reports the substituted local `model_identifier`, so the
`errorAfterSubst` row applies the same substitution the try block did. -/
def generate (hf : HostFacts) (jsonData : String) (parsed : ParseOutcome) :
    List TableRow :=
  if jsonData = "" then [couldNotObtainRow hf]
  else
    match parsed with
    | .errorBeforeSubst d => [parseErrorRow hf d]
    | .errorAfterSubst d =>
      [parseErrorRow
        { hf with model_identifier :=
            if stringContains hf.model_identifier "VirtualMac" then "Macmini9,1"
            else hf.model_identifier } d]
    | .ok feed => [tryEvaluateFeed hf feed]

/-- The whole invocation: fetch, then emit rows from the fetched body.
Returns the emitted rows together with the cache state after the call. -/
def generateFull (hf : HostFacts) (dirOk curlOk : Bool) (resp : CurlResult)
    (st : CacheState) (parsed : ParseOutcome) :
    List TableRow × CacheState :=
  let r := fetchSofaJson dirOk curlOk resp st
  (generate hf r.1 parsed, r.2)

/-! ### Helper lemmas -/

theorem isPrefixOf_self_append (l r : List Char) : l.isPrefixOf (l ++ r) = true := by
  induction l with
  | nil => simp [List.isPrefixOf]
  | cons a t ih => simp [List.isPrefixOf, ih]

theorem strFind_of_prefix (hay needle : List Char)
    (h : needle.isPrefixOf hay = true) : strFind hay needle = true := by
  cases hay with
  | nil => simpa [strFind] using h
  | cons a t => simp [strFind, h]

theorem strFind_append (pre needle post : List Char) :
    strFind (pre ++ needle ++ post) needle = true := by
  induction pre with
  | nil => exact strFind_of_prefix _ _ (isPrefixOf_self_append needle post)
  | cons a t ih =>
    have h2 : strFind ((a :: t) ++ needle ++ post) needle =
        (needle.isPrefixOf ((a :: t) ++ needle ++ post) ||
          strFind (t ++ needle ++ post) needle) := rfl
    rw [h2, ih, Bool.or_true]

theorem stringContains_append (pre needle post : String) :
    stringContains (pre ++ needle ++ post) needle = true := by
  unfold stringContains
  have hd : (pre ++ needle ++ post).toList =
      pre.toList ++ needle.toList ++ post.toList := by
    cases pre
    cases needle
    cases post
    simp [String.toList, String.append, List.append_assoc]
  rw [hd]
  exact strFind_append pre.toList needle.toList post.toList

theorem findChar_not_mem (l : List Char) (c : Char) (h : c ∉ l) :
    findChar l c = none := by
  induction l with
  | nil => rfl
  | cons a t ih =>
    have ha : ¬ a = c := by rintro rfl; exact h (List.mem_cons_self a t)
    have ht : c ∉ t := fun m => h (List.mem_cons_of_mem a m)
    simp [findChar, ha, ih ht]

theorem findChar_append (a b : List Char) (c : Char) (h : c ∉ a) :
    findChar (a ++ c :: b) c = some a.length := by
  induction a with
  | nil => simp [findChar]
  | cons x t ih =>
    have hx : ¬ x = c := by rintro rfl; exact h (List.mem_cons_self x t)
    have ht : c ∉ t := fun m => h (List.mem_cons_of_mem x m)
    simp [findChar, hx, ih ht]

/-! ### Claim theorems -/

/-- C2: for every invocation in which host facts are available, `generate`
returns exactly one result row — never zero rows and never more than one —
regardless of whether the fetch succeeds, totally fails, or parsing fails.
Absence of escaping exceptions is modelled by `generateFull` being a total
function into `List TableRow × CacheState`. -/
theorem generateFull_single_row (hf : HostFacts) (dirOk curlOk : Bool)
    (resp : CurlResult) (st : CacheState) (parsed : ParseOutcome) :
    (generateFull hf dirOk curlOk resp st parsed).1.length = 1 := by
  unfold generateFull generate
  dsimp only
  split
  · rfl
  · split <;> rfl

/-- C3 counterexample: on a network error of the transport call itself
(`curl_easy_perform` returning an error code), the fetcher returns the empty
string at once even though a non-empty cached body exists, and leaves the
cache untouched — it does not fall back to the cached body as the claim
states. -/
theorem fetch_netError_ignores_cache_cex :
    ("CACHED" : String) ≠ "" ∧
    (fetchSofaJson true true .netError ⟨"CACHED", "E"⟩).1 = "" ∧
    (fetchSofaJson true true .netError ⟨"CACHED", "E"⟩).2 = ⟨"CACHED", "E"⟩ :=
  ⟨by decide, rfl, rfl⟩

/-- C3 amended: only for a completed response with a non-200/non-304 status
does the fetcher fall back to the cached body (when non-empty; otherwise it
signals total failure with the empty string); on a network error of the
transport call itself it returns the empty string immediately without
consulting the cache. -/
theorem fetch_unavailable_fallback (st : CacheState) (code : Nat)
    (etagResp : Option String) (body : String)
    (h1 : code ≠ 200) (h2 : code ≠ 304) :
    ((fetchSofaJson true true (.completed code etagResp body) st).1 =
      if st.jsonCache = "" then "" else st.jsonCache) ∧
    (fetchSofaJson true true .netError st).1 = "" := by
  refine ⟨?_, rfl⟩
  cases etagResp <;> simp only [fetchSofaJson, h1, h2, if_false, reduceCtorEq] <;>
    split <;> simp_all

/-- C3 amended, witness at HTTP 500 with a non-empty cache. -/
theorem fetch_unavailable_fallback_witness :
    (fetchSofaJson true true (.completed 500 none "x") ⟨"OLD", "E"⟩).1 =
      (if ("OLD" : String) = "" then "" else "OLD") :=
  (fetch_unavailable_fallback ⟨"OLD", "E"⟩ 500 none "x" (by decide) (by decide)).1

/-- C4 counterexample: a 304 "not modified" response that carries an ETag
header updates the persisted token file even though the outcome is
NotModified, contradicting the claim that both cache files are left
unchanged outside the Fresh path. -/
theorem fetch_304_updates_etag_cex :
    (fetchSofaJson true true (.completed 304 (some "E2") "") ⟨"BODY", "E1"⟩).2.etagCache
      = "E2" ∧ ("E2" : String) ≠ "E1" :=
  ⟨rfl, by decide⟩

/-- C4 amended: the body file is overwritten exactly on an HTTP 200 response
(so only on the Fresh path), but the revalidation token is persisted on every
completed response that carries one — including 304 and failure statuses —
because the source writes the ETag before examining the status code; when the
directory or curl handle cannot be obtained, or the transport call errors,
both files are left unchanged. -/
theorem fetch_cache_frame (dirOk curlOk : Bool) (resp : CurlResult)
    (st : CacheState) :
    (∀ etagResp body, dirOk = true → curlOk = true →
        resp = .completed 200 etagResp body →
        (fetchSofaJson dirOk curlOk resp st).2 =
          ⟨body, match etagResp with | some e => e | none => st.etagCache⟩) ∧
    (dirOk = false ∨ curlOk = false ∨ resp = .netError →
        (fetchSofaJson dirOk curlOk resp st).2 = st) ∧
    (∀ code etagResp body, code ≠ 200 →
        dirOk = true → curlOk = true →
        resp = .completed code etagResp body →
        (fetchSofaJson dirOk curlOk resp st).2.jsonCache = st.jsonCache ∧
        (fetchSofaJson dirOk curlOk resp st).2.etagCache =
          (match etagResp with | some e => e | none => st.etagCache)) := by
  refine ⟨?_, ?_, ?_⟩
  · rintro etagResp body rfl rfl rfl
    cases etagResp <;> simp [fetchSofaJson]
  · rintro (rfl | rfl | rfl) <;> simp [fetchSofaJson]
  · rintro code etagResp body hc rfl rfl rfl
    by_cases h304 : code = 304
    · subst h304
      cases etagResp <;> simp [fetchSofaJson]
    · cases etagResp <;>
        simp only [fetchSofaJson, h304, hc, if_false, reduceCtorEq] <;>
        split <;> simp_all

/-- C4 amended, witness: a 200 response with an ETag overwrites the body file
and persists the token. -/
theorem fetch_cache_frame_witness :
    (fetchSofaJson true true (.completed 200 (some "E2") "NEW") ⟨"OLD", "E1"⟩).2 =
      ⟨"NEW", "E2"⟩ :=
  (fetch_cache_frame true true (.completed 200 (some "E2") "NEW") ⟨"OLD", "E1"⟩).1
    (some "E2") "NEW" rfl rfl rfl

/-- C5: on a 304 "not modified" status the fetch returns the locally cached
body as the authoritative result; in particular, when the cached body is
empty the result is the empty string, i.e. the outcome degrades to total
failure. -/
theorem fetch_304_returns_cache (st : CacheState) (etagResp : Option String)
    (body : String) :
    (fetchSofaJson true true (.completed 304 etagResp body) st).1 = st.jsonCache ∧
    (st.jsonCache = "" →
      (fetchSofaJson true true (.completed 304 etagResp body) st).1 = "") := by
  have h : (fetchSofaJson true true (.completed 304 etagResp body) st).1 =
      st.jsonCache := by
    cases etagResp <;> simp [fetchSofaJson]
  exact ⟨h, fun he => h.trans he⟩

/-- C5 witness: with an empty cached body a 304 yields the empty result. -/
theorem fetch_304_returns_cache_witness :
    (fetchSofaJson true true (.completed 304 none "") ⟨"", "E"⟩).1 = "" :=
  (fetch_304_returns_cache ⟨"", "E"⟩ none "").2 rfl

/-- C10: an HTTP 200 response with an empty body overwrites the cached body
file with that empty body, returns the empty string, and `generate` then
emits the total-failure row ("Could not obtain data", both versions
"Unknown", tri-state unknown "-1") even though the transport call
succeeded. -/
theorem fetch_200_empty_body (hf : HostFacts) (st : CacheState)
    (etagResp : Option String) (parsed : ParseOutcome) :
    (fetchSofaJson true true (.completed 200 etagResp "") st).1 = "" ∧
    (fetchSofaJson true true (.completed 200 etagResp "") st).2.jsonCache = "" ∧
    generate hf (fetchSofaJson true true (.completed 200 etagResp "") st).1 parsed =
      [⟨hf.system_version, system_os_major hf.system_version, hf.model_identifier,
        "Unknown", "Unknown", "-1", "Could not obtain data"⟩] := by
  cases etagResp <;> simp [fetchSofaJson, generate, couldNotObtainRow]

/-- C6: for every feed body that is malformed (the parse throws with detail
`d`) or lacks the expected shape — whether the throw happens before the
VirtualMac substitution (`json::parse`, the `OSVersions[0]` extraction, and
in particular the empty-`OSVersions` json type error) or after it (the
`Models`/`SupportedOS` extractions) — the emitted row has status
"Error parsing data: " followed by the error detail, both version fields
"Error", and tri-state unknown compatibility "-1".  The model identifier the
row reports is the original one for throws before the substitution and the
possibly substituted one for throws after it, as in the source's catch
block. -/
theorem generate_parse_error (hf : HostFacts) (jsonData : String)
    (h : jsonData ≠ "") (d : String) (models : List (String × List String)) :
    generate hf jsonData (.errorBeforeSubst d) =
      [⟨hf.system_version, system_os_major hf.system_version, hf.model_identifier,
        "Error", "Error", "-1", "Error parsing data: " ++ d⟩] ∧
    generate hf jsonData (.errorAfterSubst d) =
      [⟨hf.system_version, system_os_major hf.system_version,
        (if stringContains hf.model_identifier "VirtualMac" then "Macmini9,1"
          else hf.model_identifier),
        "Error", "Error", "-1", "Error parsing data: " ++ d⟩] ∧
    generate hf jsonData (.ok ⟨[], models⟩) =
      [⟨hf.system_version, system_os_major hf.system_version, hf.model_identifier,
        "Error", "Error", "-1", "Error parsing data: " ++ typeErrorDetail⟩] := by
  refine ⟨?_, ?_, ?_⟩ <;> simp [generate, h, tryEvaluateFeed, parseErrorRow]

/-- C6 witness at a concrete malformed body, on the path where the throw
follows the VirtualMac substitution. -/
theorem generate_parse_error_witness :
    generate ⟨"14.5", "VirtualMac14,2"⟩ "not json" (.errorAfterSubst "boom") =
      [⟨"14.5", system_os_major "14.5",
        (if stringContains "VirtualMac14,2" "VirtualMac" then "Macmini9,1"
          else "VirtualMac14,2"),
        "Error", "Error", "-1", "Error parsing data: " ++ "boom"⟩] :=
  (generate_parse_error ⟨"14.5", "VirtualMac14,2"⟩ "not json" (by decide)
    "boom" []).2.1

/-- C7: for every version string containing '.', the derived major version is
the substring before the first '.' (stated via the decomposition
`a ++ dot :: b` with no dot in `a`); for every version string with no '.',
the major version is the whole string. -/
theorem system_os_major_spec :
    (∀ (a b : List Char), '.' ∉ a →
        system_os_major (String.mk (a ++ '.' :: b)) = String.mk a) ∧
    (∀ v : String, '.' ∉ v.toList → system_os_major v = v) := by
  constructor
  · intro a b h
    have hl : (String.mk (a ++ '.' :: b)).toList = a ++ '.' :: b := rfl
    unfold system_os_major
    rw [hl, findChar_append a b '.' h]
    have ht : (a ++ '.' :: b).take a.length = a := by
      simp
    show String.mk ((a ++ '.' :: b).take a.length) = String.mk a
    rw [ht]
  · intro v h
    unfold system_os_major
    rw [findChar_not_mem v.toList '.' h]

/-- C7 witness: the major of "14.5" is "14". -/
theorem system_os_major_spec_witness :
    system_os_major (String.mk (['1', '4'] ++ '.' :: ['5'])) =
      String.mk ['1', '4'] :=
  system_os_major_spec.1 ['1', '4'] ['5'] (by decide)

/-- C9: when the fetch yields total failure (empty body), the emitted
"Could not obtain data" row reports the host's original model identifier with
no VirtualMac substitution, even though the identifier contains the substring
"VirtualMac". -/
theorem generate_fetch_failure_no_substitution (sv pre post : String)
    (parsed : ParseOutcome) :
    stringContains (pre ++ "VirtualMac" ++ post) "VirtualMac" = true ∧
    generate ⟨sv, pre ++ "VirtualMac" ++ post⟩ "" parsed =
      [⟨sv, system_os_major sv, pre ++ "VirtualMac" ++ post,
        "Unknown", "Unknown", "-1", "Could not obtain data"⟩] := by
  refine ⟨stringContains_append pre "VirtualMac" post, ?_⟩
  simp [generate, couldNotObtainRow]

/-- C1 counterexample: a feed whose latest OS version is literally the string
"Unsupported", looked up for a model absent from the feed, yields the
unsupported-hardware row with `is_compatible = "1"` (true), not false as the
claim states — the verdict is computed as exact string equality against the
sentinel "Unsupported". -/
theorem unsupported_hardware_compatible_cex :
    (("feed" : String) ≠ "") ∧
    (tryEvaluateFeed ⟨"14.5", "Mac99,9"⟩ ⟨["Unsupported"], []⟩).status =
      "Unsupported Hardware" ∧
    (tryEvaluateFeed ⟨"14.5", "Mac99,9"⟩ ⟨["Unsupported"], []⟩).latest_compatible_macos =
      "Unsupported" ∧
    (tryEvaluateFeed ⟨"14.5", "Mac99,9"⟩ ⟨["Unsupported"], []⟩).is_compatible = "1" ∧
    ¬ (tryEvaluateFeed ⟨"14.5", "Mac99,9"⟩ ⟨["Unsupported"], []⟩).is_compatible = "0" ∧
    generate ⟨"14.5", "Mac99,9"⟩ "feed" (.ok ⟨["Unsupported"], []⟩) =
      [tryEvaluateFeed ⟨"14.5", "Mac99,9"⟩ ⟨["Unsupported"], []⟩] := by
  decide

/-- C1 amended: on a parsed feed with a non-empty OSVersions sequence, if the
(possibly substituted) model identifier maps to a non-empty supported-OS
sequence, `latest_compatible_macos` is its first element and the final status
is "Pass" when compatible and "Fail" otherwise; if not, `latest_compatible_macos`
is "Unsupported" and the status is "Unsupported Hardware".  In all cases
`is_compatible` equals exact string equality of `latest_macos` and
`latest_compatible_macos` ("1"/"0") — so on the unsupported path it is false
exactly when `latest_macos` is not itself the string "Unsupported" — and the
status is "Fail" exactly when `is_compatible` is false and the status is not
"Unsupported Hardware". -/
theorem generate_lookup_verdict (hf : HostFacts) (jsonData : String)
    (h : jsonData ≠ "") (latest : String) (rest : List String)
    (models : List (String × List String)) :
    generate hf jsonData (.ok ⟨latest :: rest, models⟩) =
      [tryEvaluateFeed hf ⟨latest :: rest, models⟩] ∧
    (tryEvaluateFeed hf ⟨latest :: rest, models⟩).latest_macos = latest ∧
    (tryEvaluateFeed hf ⟨latest :: rest, models⟩).latest_compatible_macos =
      (match lookupModel models (if stringContains hf.model_identifier "VirtualMac"
          then "Macmini9,1" else hf.model_identifier) with
        | some (o :: _) => o
        | _ => "Unsupported") ∧
    (tryEvaluateFeed hf ⟨latest :: rest, models⟩).status =
      (match lookupModel models (if stringContains hf.model_identifier "VirtualMac"
          then "Macmini9,1" else hf.model_identifier) with
        | some (o :: _) => if latest = o then "Pass" else "Fail"
        | _ => "Unsupported Hardware") ∧
    (tryEvaluateFeed hf ⟨latest :: rest, models⟩).is_compatible =
      (if latest = (tryEvaluateFeed hf ⟨latest :: rest, models⟩).latest_compatible_macos
        then "1" else "0") ∧
    ((tryEvaluateFeed hf ⟨latest :: rest, models⟩).status = "Fail" ↔
      ((tryEvaluateFeed hf ⟨latest :: rest, models⟩).is_compatible = "0" ∧
        ¬ (tryEvaluateFeed hf ⟨latest :: rest, models⟩).status =
          "Unsupported Hardware")) := by
  refine ⟨by simp [generate, h], ?_⟩
  set m := if stringContains hf.model_identifier "VirtualMac" then "Macmini9,1"
    else hf.model_identifier with hm
  rcases hl : lookupModel models m with _ | (_ | ⟨o, tl⟩)
  · simp_all [tryEvaluateFeed, hl, ← hm]
  · simp_all [tryEvaluateFeed, hl, ← hm]
  · by_cases ho : latest = o <;> simp_all [tryEvaluateFeed, hl, ← hm]

/-- C1 amended, witness at Scenario A of the spec: latest OS "15.0", model
"Mac14,7" supporting ["14.5"], host on "14.5". -/
theorem generate_lookup_verdict_witness :
    generate ⟨"14.5", "Mac14,7"⟩ "feedbody" (.ok ⟨["15.0"], [("Mac14,7", ["14.5"])]⟩) =
      [tryEvaluateFeed ⟨"14.5", "Mac14,7"⟩ ⟨["15.0"], [("Mac14,7", ["14.5"])]⟩] ∧
    (tryEvaluateFeed ⟨"14.5", "Mac14,7"⟩
      ⟨["15.0"], [("Mac14,7", ["14.5"])]⟩).latest_macos = "15.0" ∧
    (tryEvaluateFeed ⟨"14.5", "Mac14,7"⟩
      ⟨["15.0"], [("Mac14,7", ["14.5"])]⟩).latest_compatible_macos = "14.5" ∧
    (tryEvaluateFeed ⟨"14.5", "Mac14,7"⟩
      ⟨["15.0"], [("Mac14,7", ["14.5"])]⟩).status = "Fail" ∧
    (tryEvaluateFeed ⟨"14.5", "Mac14,7"⟩
      ⟨["15.0"], [("Mac14,7", ["14.5"])]⟩).is_compatible = "0" := by
  have hth := generate_lookup_verdict ⟨"14.5", "Mac14,7"⟩ "feedbody" (by decide)
    "15.0" [] [("Mac14,7", ["14.5"])]
  exact ⟨hth.1, hth.2.1, hth.2.2.1.trans (by decide), hth.2.2.2.1.trans (by decide),
    hth.2.2.2.2.1.trans (by decide)⟩

/-- C8: for every model identifier containing the substring "VirtualMac"
anywhere in it, on the evaluation path (body fetched, document parsed, with a
non-empty OSVersions sequence) the identifier is replaced by the fixed
reference model "Macmini9,1" before the feed lookup — the supported-OS lookup
is taken at key "Macmini9,1" — and the substituted value is what the result
row reports in its model_identifier field. -/
theorem virtualmac_substitution (sv pre post jsonData : String)
    (h : jsonData ≠ "") (latest : String) (rest : List String)
    (models : List (String × List String)) :
    generate ⟨sv, pre ++ "VirtualMac" ++ post⟩ jsonData
        (.ok ⟨latest :: rest, models⟩) =
      [tryEvaluateFeed ⟨sv, pre ++ "VirtualMac" ++ post⟩ ⟨latest :: rest, models⟩] ∧
    (tryEvaluateFeed ⟨sv, pre ++ "VirtualMac" ++ post⟩
      ⟨latest :: rest, models⟩).model_identifier = "Macmini9,1" ∧
    (tryEvaluateFeed ⟨sv, pre ++ "VirtualMac" ++ post⟩
      ⟨latest :: rest, models⟩).latest_compatible_macos =
        (match lookupModel models "Macmini9,1" with
          | some (o :: _) => o
          | _ => "Unsupported") := by
  have hc := stringContains_append pre "VirtualMac" post
  refine ⟨by simp [generate, h], ?_, ?_⟩ <;> simp [tryEvaluateFeed, hc]

/-- C8 witness: a virtual machine identifier is reported as "Macmini9,1" and
looked up as such. -/
theorem virtualmac_substitution_witness :
    generate ⟨"14.5", "" ++ "VirtualMac" ++ "14,2"⟩ "feedbody"
        (.ok ⟨["15.0"], [("Macmini9,1", ["15.0"])]⟩) =
      [tryEvaluateFeed ⟨"14.5", "" ++ "VirtualMac" ++ "14,2"⟩
        ⟨["15.0"], [("Macmini9,1", ["15.0"])]⟩] ∧
    (tryEvaluateFeed ⟨"14.5", "" ++ "VirtualMac" ++ "14,2"⟩
      ⟨["15.0"], [("Macmini9,1", ["15.0"])]⟩).model_identifier = "Macmini9,1" ∧
    (tryEvaluateFeed ⟨"14.5", "" ++ "VirtualMac" ++ "14,2"⟩
      ⟨["15.0"], [("Macmini9,1", ["15.0"])]⟩).latest_compatible_macos =
        (match lookupModel [("Macmini9,1", ["15.0"])] "Macmini9,1" with
          | some (o :: _) => o
          | _ => "Unsupported") :=
  virtualmac_substitution "14.5" "" "14,2" "feedbody" (by decide) "15.0" []
    [("Macmini9,1", ["15.0"])]

end MacOSCompat
